import Mathlib

/-!
Verification development for the WhatsApp Web automation service
(yuvasekh/whatsappai).  The repository drives a headless browser against
WhatsApp Web, exposing HTTP endpoints for session initialization, QR-code
retrieval, and single/bulk message dispatch.

The definitions below are shallow embeddings of the relevant JavaScript
functions from `src/index.js` and `src/unnamed/part_004` (a near-duplicate
variant of the same service).  Browser automation calls (navigation, element
lookup, typing, key presses, screenshots) are the only effectful operations;
their outcomes are supplied through explicit environment records so every
embedded function is a total, executable Lean function.  JavaScript string
truthiness (the empty string is falsy) is modelled by comparison with `""`,
and a thrown exception in a `try` block is modelled by short-circuiting to
the value the corresponding `catch` block produces.
-/

/-- JavaScript `a || b` on strings: `""` is falsy, so the result is `b`
exactly when `a` is empty.  Used for `const mediaUrl = filePath || link;`
in the `/send-message` and `/send-messages` handlers. -/
def jsOr (a b : String) : String :=
  if a = "" then b else a

/-- An ASCII whitespace character (what the source feeds `trim`). -/
def isJsSpace (c : Char) : Bool :=
  c = ' ' || c = '\n' || c = '\t' || c = '\r'

/-- JavaScript `s.trim()`: strip leading and trailing whitespace. -/
def jsTrim (s : String) : String :=
  ⟨((s.data.dropWhile isJsSpace).reverse.dropWhile isJsSpace).reverse⟩

/-- JavaScript `s.toLowerCase()` on the ASCII texts the source compares. -/
def jsToLower (s : String) : String :=
  ⟨s.data.map Char.toLower⟩

/-- One item of the `whatsapp` array accepted by the `/send-messages`
handler (and, field-for-field, the body of `/send-message`): destructured as
`{ id, mobile, message = '', filePath = '', link = '', caption = '', mediaType = 'auto' }`.
Absent optional fields are modelled as `""` (the JavaScript default). -/
structure BatchItem where
  id : String
  mobile : String
  message : String
  filePath : String
  link : String
  caption : String
deriving Repr, DecidableEq

/-- `const mediaUrl = filePath || link;` for one request item. -/
def itemMediaUrl (it : BatchItem) : String :=
  jsOr it.filePath it.link

/-- The combined-payload construction of `sendCombinedMessage`
(`src/index.js` lines 798-815, identically `src/unnamed/part_004`
lines 787-790):

```
let combinedContent = '';
if (mediaUrl) combinedContent += mediaUrl;
if (caption)  combinedContent += combinedContent ? `\n${caption}` : caption;
if (message)  combinedContent += combinedContent ? `\n${message}` : message;
```
-/
def buildCombinedContent (message mediaUrl caption : String) : String :=
  let c0 : String := ""
  let c1 : String := if mediaUrl = "" then c0 else c0 ++ mediaUrl
  let c2 : String :=
    if caption = "" then c1
    else if c1 = "" then c1 ++ caption else c1 ++ ("\n" ++ caption)
  let c3 : String :=
    if message = "" then c2
    else if c2 = "" then c2 ++ message else c2 ++ ("\n" ++ message)
  c3

/-- Reference form of the combined payload: the non-empty fields in the fixed
order media reference, caption, text body, joined by single newlines. -/
def joinPresent (fields : List String) : String :=
  String.intercalate "\n" (fields.filter (fun s => s ≠ ""))

/-- Whether the JavaScript regex `.` matches a character: any character
except a line terminator.  (The source strings contain `\n` as their only
line-terminator candidate.) -/
def jsDotMatches (c : Char) : Bool := c != '\n'

/-- The match list of `combinedContent.match(/.{1,100}/g)`
(`src/unnamed/part_004` line 800): scan left to right, `.` never matching a
newline, maximal munch of up to 100 characters per match, no empty matches
(a `null` result is turned into `[]` by `|| []`).  `cur` is the reversed
current partial match. -/
def jsDotChunksAux (cur : List Char) : List Char → List (List Char)
  | [] => if cur.isEmpty then [] else [cur.reverse]
  | c :: rest =>
    if jsDotMatches c = false then
      if cur.isEmpty then jsDotChunksAux [] rest
      else cur.reverse :: jsDotChunksAux [] rest
    else if cur.length = 100 then
      cur.reverse :: jsDotChunksAux [c] rest
    else
      jsDotChunksAux (c :: cur) rest

/-- The content `src/index.js` line 822 delivers to the compose surface:
`messageBox.type(combinedContent)` types the payload verbatim. -/
def typedContentIndex (s : String) : String := s

/-- The content part_004's chunk loop (lines 800-803) delivers to the
compose surface: each regex match is typed in order
(`for (const chunk of chunks) await messageBox.type(chunk)`), so the typed
text is the concatenation of the matches — and since `.` never matches a
newline, every newline separator of the built payload is dropped. -/
def typedContent04 (s : String) : String :=
  ⟨(jsDotChunksAux [] s.data).flatten⟩

/-!
## Message dispatch pipeline

`sendCombinedMessage` (`src/index.js` lines 742-850 and
`src/unnamed/part_004` lines 760-829) drives the browser: navigate to the
chat, locate the compose box, clear it, type the combined payload, submit.
Every automation step can throw; the whole body is wrapped in a `try` whose
`catch` returns `{ success: false, mobile, error }`, so the function never
throws to its caller.  The outcome of each automation step is supplied by a
`SendEnv` record: `none` in an `Option String` field means the step
succeeded, `some e` means it threw the exception message `e`.  The three
`Bool` signal fields record what the page would show after a submit attempt
(compose box cleared, a message bubble present, a sent-status check mark);
they are the corroborating-send signals that `sendTextMessage`
(`src/index.js` lines 2038-2205) inspects.
-/

/-- Outcomes of the browser-automation steps used by one dispatch, plus the
observable after-send verification signals of the page. -/
structure SendEnv where
  pageOk : Bool
  navigate : Option String
  boxFound : Bool
  preTypeErr : Option String
  typeErr : Option String
  sendButtonVisible : Bool
  clickErr : Option String
  pressErr : Option String
  inputCleared : Bool
  bubblePresent : Bool
  sentIndicator : Bool
deriving Repr, DecidableEq

/-- A `SendEnv` in which every automation step succeeds. -/
def allOkEnv : SendEnv :=
  ⟨true, none, true, none, none, true, none, none, false, false, false⟩

/-- The value `sendCombinedMessage` resolves with:
`{ success, mobile, error? }` (timestamp and echoed content omitted). -/
structure SendResultX where
  success : Bool
  mobile : String
  error : Option String
deriving Repr, DecidableEq

/-- Whether at least one corroborating send signal is observable in the
environment (compose box cleared, message bubble appended, or sent-status
indicator) — the checks of `sendTextMessage` lines 2125-2141. -/
def observedSignal (env : SendEnv) : Bool :=
  env.inputCleared || env.bubblePresent || env.sentIndicator

/-- `sendCombinedMessage` of `src/index.js` (lines 742-850): navigate (line
751, throws propagate to the catch), find the compose box (753-777), focus
and clear it (779-796), build the combined payload (798-815, throwing
`'No content to send'` when empty), type it (822), press Enter (826), then
resolve `{ success: true }` — with no verification step.  Any throw is
converted by the catch (840-849) into `{ success: false, error }`. -/
def sendCombinedMessageIndex (env : SendEnv)
    (mobile message mediaUrl caption : String) : SendResultX :=
  match env.navigate with
  | some e => ⟨false, mobile, some e⟩
  | none =>
    if env.boxFound = false then
      ⟨false, mobile, some "Message input box not found"⟩
    else
      match env.preTypeErr with
      | some e => ⟨false, mobile, some e⟩
      | none =>
        let combined := buildCombinedContent message mediaUrl caption
        if combined = "" then ⟨false, mobile, some "No content to send"⟩
        else
          match env.typeErr with
          | some e => ⟨false, mobile, some e⟩
          | none =>
            match env.pressErr with
            | some e => ⟨false, mobile, some e⟩
            | none => ⟨true, mobile, none⟩

/-- `sendCombinedMessage` of `src/unnamed/part_004` (lines 760-829): first
an explicit page check returning a failure result without navigating (762),
then navigate (765), compose-box wait (767-769), clear (771-785), combined
payload (787-794, rejected when its trim is empty), chunked typing
(799-803) — which delivers `typedContent04 combined` to the compose
surface, NOT `combined` itself, because the `/.{1,100}/g` chunking drops
every newline; the typing outcome only affects the result through
`env.typeErr` — and submit: click the send button when visible, else press
Enter (806-816); then resolve `{ success: true }` with no verification. -/
def sendCombinedMessage04 (env : SendEnv)
    (mobile message mediaUrl caption : String) : SendResultX :=
  if env.pageOk = false then
    ⟨false, mobile, some "Page not available for sending message."⟩
  else
    match env.navigate with
    | some e => ⟨false, mobile, some e⟩
    | none =>
      if env.boxFound = false then
        ⟨false, mobile, some "Timeout waiting for compose box"⟩
      else
        match env.preTypeErr with
        | some e => ⟨false, mobile, some e⟩
        | none =>
          let combined := buildCombinedContent message mediaUrl caption
          if jsTrim combined = "" then
            ⟨false, mobile, some "No content (message, media, or caption) to send."⟩
          else
            match env.typeErr with
            | some e => ⟨false, mobile, some e⟩
            | none =>
              if env.sendButtonVisible then
                match env.clickErr with
                | some e => ⟨false, mobile, some e⟩
                | none => ⟨true, mobile, none⟩
              else
                match env.pressErr with
                | some e => ⟨false, mobile, some e⟩
                | none => ⟨true, mobile, none⟩

/-!
## Verification stage of `sendTextMessage`

`sendTextMessage` (`src/index.js` lines 2038-2205) is the only send path
with a verification stage: each keyboard submit attempt (Enter on the page,
Enter on the box, NumpadEnter — lines 2112-2116) is followed by the three
verification checks, and the attempt loop only sets `messageSent` when one
check passes (lines 2143-2161).  If no attempt verifies, a fallback clicks
the send button and sets `messageSent` without any verification
(lines 2168-2179).
-/

/-- One keyboard submit attempt: whether the key press itself succeeded, and
the page signals observable afterwards. -/
structure SendAttempt where
  pressOk : Bool
  signals : SendEnv
deriving Repr

/-- The attempt loop of `sendTextMessage` (lines 2118-2166): take attempts
in order; a throwing attempt is skipped; a succeeding attempt counts as sent
only when one of the three verification checks passes. -/
def keyboardAttemptLoop : List SendAttempt → Bool
  | [] => false
  | a :: rest =>
    if a.pressOk && observedSignal a.signals then true
    else keyboardAttemptLoop rest

/-- The full send stage of `sendTextMessage` (lines 2110-2183): the verified
keyboard attempts, then the unverified send-button fallback
(`messageSent = true` as soon as the visible button is clicked). -/
def sendTextMessageSent (attempts : List SendAttempt)
    (buttonVisible clickOk : Bool) : Bool :=
  if keyboardAttemptLoop attempts then true
  else buttonVisible && clickOk

/-!
## Bulk queue runner

The `/send-messages` handler (`src/index.js` lines 898-1010, variant
`src/unnamed/part_004` lines 881-916) validates the request array and the
session, then loops over the items sequentially: an item failing field
validation gets a failure result pushed and the loop continues; otherwise
`sendCombinedMessage` is awaited and its result pushed.  After the loop the
summary is computed from the result list.  The per-item automation outcomes
are supplied as a function from the item position to a `SendEnv`.
-/

/-- One entry of the `results` array: `{ id, success, mobile, error? }`
(the success branch additionally echoes message/content/timestamp, which the
claims do not mention). -/
structure ItemResult where
  id : String
  success : Bool
  mobile : String
  error : Option String
deriving Repr, DecidableEq

/-- One processed item together with the bookkeeping the claims talk about:
whether `sendCombinedMessage` was invoked, and whether chat navigation was
invoked for the item. -/
structure ItemProcessed where
  result : ItemResult
  dispatched : Bool
  navigated : Bool
deriving Repr, DecidableEq

/-- Per-item processing of `/send-messages` in `src/index.js`
(lines 940-977): `if (!mobile)` push a field error (946-954), else
`if (!message && !mediaUrl)` push a field error (956-964), else call
`sendCombinedMessage` (973) — which navigates first thing (751). -/
def processItemIndex (env : SendEnv) (it : BatchItem) : ItemProcessed :=
  if it.mobile = "" then
    ⟨⟨it.id, false, "unknown", some "Mobile number is required"⟩, false, false⟩
  else if it.message = "" ∧ itemMediaUrl it = "" then
    ⟨⟨it.id, false, it.mobile,
      some "Either message or media (filePath/link) is required"⟩, false, false⟩
  else
    let r := sendCombinedMessageIndex env it.mobile it.message (itemMediaUrl it) it.caption
    ⟨⟨it.id, r.success, r.mobile, r.error⟩, true, true⟩

/-- Per-item processing of `/send-messages` in `src/unnamed/part_004`
(lines 893-903): one combined validation
`if (!mobile || (!message.trim() && !mediaUrl.trim()))`, else
`sendCombinedMessage` — whose part_004 body checks the page before
navigating (762). -/
def processItem04 (env : SendEnv) (it : BatchItem) : ItemProcessed :=
  if it.mobile = "" ∨ (jsTrim it.message = "" ∧ jsTrim (itemMediaUrl it) = "") then
    ⟨⟨it.id, false, if it.mobile = "" then "unknown" else it.mobile,
      some "Mobile number and (message or media) are required."⟩, false, false⟩
  else
    let r := sendCombinedMessage04 env it.mobile it.message (itemMediaUrl it) it.caption
    ⟨⟨it.id, r.success, r.mobile, r.error⟩, true, env.pageOk⟩

/-- The sequential loop `for (let i = 0; i < whatsapp.length; i++)`:
item `i` is processed against the automation outcomes `env i`. -/
def runItems (step : SendEnv → BatchItem → ItemProcessed)
    (env : Nat → SendEnv) : Nat → List BatchItem → List ItemProcessed
  | _, [] => []
  | i, it :: rest => step (env i) it :: runItems step env (i + 1) rest

/-- The aggregated summary `{ total, successful, failed }`. -/
structure BatchSummary where
  total : Nat
  successful : Nat
  failed : Nat
deriving Repr, DecidableEq

/-- The response of the `/send-messages` handler: a 400 validation/session
error, or the 200 body with summary and per-item results. -/
inductive BatchResponse where
  | badRequest (error : String)
  | okResp (summary : BatchSummary) (results : List ItemResult)
deriving Repr, DecidableEq

/-- Session-level global state the handlers consult: `globalBrowser`,
`globalPage`, `isLoggedIn`, `isWhatsAppReady`. -/
structure SessionState where
  browserActive : Bool
  pageActive : Bool
  loggedIn : Bool
  ready : Bool
deriving Repr, DecidableEq

/-- The `/send-messages` handler of `src/index.js` (lines 898-1010).
Returns the HTTP response together with the number of
`sendCombinedMessage` invocations the request caused.  Summary fields
(lines 986-997): `total = whatsapp.length`,
`successful = results.filter(r => r.success).length`,
`failed = results.filter(r => !r.success).length`. -/
def processBatchIndex (env : Nat → SendEnv) (st : SessionState)
    (items : List BatchItem) : BatchResponse × Nat :=
  if items = [] then
    (.badRequest "Invalid request body. Expected array of WhatsApp messages in \"whatsapp\" field.", 0)
  else if ¬ (st.pageActive ∧ st.browserActive) then
    (.badRequest "WhatsApp session not initialized. Please call /initialize first.", 0)
  else if st.loggedIn = false then
    (.badRequest "WhatsApp session not logged in. Please scan QR code first.", 0)
  else
    let processed := runItems processItemIndex env 0 items
    let results := processed.map (fun p => p.result)
    let successful := (results.filter (fun r => r.success)).length
    let failed := (results.filter (fun r => !r.success)).length
    (.okResp ⟨items.length, successful, failed⟩ results,
      (processed.filter (fun p => p.dispatched)).length)

/-- The `/send-messages` handler of `src/unnamed/part_004`
(lines 881-916).  Session check additionally requires readiness (887);
summary (910-911): `successful = results.filter(r => r.success).length`,
`failed = results.length - successful`. -/
def processBatch04 (env : Nat → SendEnv) (st : SessionState)
    (items : List BatchItem) : BatchResponse × Nat :=
  if items = [] then
    (.badRequest "Invalid \"whatsapp\" array in request body.", 0)
  else if ¬ (st.browserActive ∧ st.pageActive ∧ st.loggedIn ∧ st.ready) then
    (.badRequest "WhatsApp not ready. Ensure session is initialized, logged in, and ready.", 0)
  else
    let processed := runItems processItem04 env 0 items
    let results := processed.map (fun p => p.result)
    let successful := (results.filter (fun r => r.success)).length
    (.okResp ⟨items.length, successful, results.length - successful⟩ results,
      (processed.filter (fun p => p.dispatched)).length)

/-!
## Session initialization

`/initialize` in `src/index.js` (lines 870-896) short-circuits when
`isLoggedIn && globalBrowser`, answering the already-active response and
touching neither the browser nor the page; otherwise it runs the full
`initializeWhatsApp`.  `initializeWhatsApp` of `src/unnamed/part_004`
(lines 118-124) has the same guard `globalBrowser && isLoggedIn`, only
re-running `waitForWhatsAppReady` when the ready flag is down.  The
non-idempotent fresh-start path is abstracted as an oracle parameter:
the claims under verification only concern the already-`Ready` branch. -/

/-- The `/initialize` response body (metadata/qrCode omitted: the
already-active branch sends neither). -/
structure InitResponse where
  success : Bool
  message : String
  loggedIn : Bool
deriving Repr, DecidableEq

/-- Line 873-877 of `src/index.js`: the already-active response. -/
def alreadyActiveResponse : InitResponse :=
  ⟨true, "WhatsApp session already active", true⟩

/-- The `/initialize` handler of `src/index.js` (lines 870-896).  The
result triple is (response, session state afterwards, whether a fresh
automation surface was launched or navigated).  `fresh` abstracts the full
`initializeWhatsApp` run taken when the guard fails. -/
def initializeHandlerIndex
    (fresh : SessionState → InitResponse × SessionState × Bool)
    (st : SessionState) : InitResponse × SessionState × Bool :=
  if st.loggedIn ∧ st.browserActive then (alreadyActiveResponse, st, false)
  else fresh st

/-- Resolution value of part_004's `initializeWhatsApp` for the claims'
purposes. -/
structure InitResult04 where
  loggedIn : Bool
deriving Repr, DecidableEq

/-- `initializeWhatsApp` of `src/unnamed/part_004` (lines 118-124): when
`globalBrowser && isLoggedIn`, return `{ loggedIn: true }`, first running
`waitForWhatsAppReady` (which never launches or navigates, but can throw)
if the ready flag is down.  `wait` abstracts that readiness poll and
`fresh` the full fresh-start path. -/
def initializeWhatsApp04
    (wait : SessionState → Except String SessionState)
    (fresh : SessionState → Except String (InitResult04 × SessionState × Bool))
    (st : SessionState) : Except String (InitResult04 × SessionState × Bool) :=
  if st.browserActive ∧ st.loggedIn then
    if st.ready then .ok (⟨true⟩, st, false)
    else
      match wait st with
      | .ok st2 => .ok (⟨true⟩, st2, false)
      | .error e => .error e
  else fresh st

/-!
## QR code extraction

`extractQRCode` (`src/index.js` lines 340-484, variant
`src/unnamed/part_004` lines 370-496) locates the QR canvas, serializes it
with `canvas.toDataURL('image/png')`, and falls back to an element
screenshot when the data URL is missing or shorter than 1000 characters.
The embedding keeps the quantities the code branches on: the length of the
canvas data URL (`none` when `toDataURL` returned null or threw) and the
byte length of the element screenshot buffer (`none` when the screenshot
threw).  The fallback data URL is
`'data:image/png;base64,' + buffer.toString('base64')`, whose length is
22 + the padded base64 length of the buffer. -/

/-- Length of the padded base64 encoding of `n` bytes
(`Buffer.toString('base64')`). -/
def b64Len (n : Nat) : Nat := 4 * ((n + 2) / 3)

/-- Length of `'data:image/png;base64,' + base64(buffer)` for an `n`-byte
buffer: the 22-character prefix plus the base64 text. -/
def dataUrlLen (n : Nat) : Nat := 22 + b64Len n

/-- What the page yields during QR extraction: the canvas data-URL length
and the element-screenshot byte length (each `none` on failure). -/
structure QRPageData where
  canvasDataLen : Option Nat
  screenshotLen : Option Nat
deriving Repr, DecidableEq

/-- Result of `extractQRCode`: success with the extraction method and the
length of the returned `qrCode` string, or a failure message. -/
inductive QRResult where
  | ok (method : String) (dataLen : Nat)
  | err (msg : String)
deriving Repr, DecidableEq

/-- The screenshot fallback of `src/index.js` `extractQRCode`
(lines 436-460): any successful element screenshot is base64-wrapped and
returned as success — no minimum size check on the fallback data. -/
def qrFallbackIndex : Option Nat → QRResult
  | some b => .ok "screenshot" (dataUrlLen b)
  | none => .err "Both canvas and screenshot methods failed"

/-- The screenshot fallback of `src/unnamed/part_004` `extractQRCode`
(lines 468-483): the raw screenshot buffer must be at least 500 bytes
(`!screenshotBuffer || screenshotBuffer.length < 500` fails), and the
base64 data URL of the buffer is returned otherwise. -/
def qrFallback04 : Option Nat → QRResult
  | some b =>
    if b < 500 then
      .err "QR screenshot fallback produced empty or too small image data."
    else .ok "screenshot" (dataUrlLen b)
  | none => .err "QR screenshot fallback failed"

/-- The data-selection tail of `extractQRCode` in `src/index.js`
(lines 427-474): `if (!qrDataUrl || qrDataUrl.length < 1000)` use the
screenshot fallback, else return the canvas data URL. -/
def extractQRCodeIndex (pg : QRPageData) : QRResult :=
  match pg.canvasDataLen with
  | some n => if n < 1000 then qrFallbackIndex pg.screenshotLen else .ok "canvas" n
  | none => qrFallbackIndex pg.screenshotLen

/-- The data-selection tail of `extractQRCode` in `src/unnamed/part_004`
(lines 461-488): same 1000-character canvas threshold, part_004 fallback. -/
def extractQRCode04 (pg : QRPageData) : QRResult :=
  match pg.canvasDataLen with
  | some n => if n < 1000 then qrFallback04 pg.screenshotLen else .ok "canvas" n
  | none => qrFallback04 pg.screenshotLen

/-!
## Scan-completion monitor

`monitorQRScanCompletion` installs a `setInterval` callback.  One tick of
the callback is embedded as a pure function from the observable page/session
facts at that tick to whether the interval is cleared (`stopped`) and the
updated mutable state (`isLoggedIn`, the timeout window start, the last QR
refresh time).  `src/index.js` declares the function twice; under
JavaScript function hoisting the later declaration shadows the earlier one,
so the monitor that actually runs is the one at lines 1776-1844 (ticks
every 10 s, no QR refresh, and clears the interval when the page handle is
gone, on login, when the page URL leaves WhatsApp Web, or when the maximum
wait is exceeded).  The first declaration (lines 487-568) is dead code; it
is embedded separately below because the specification sentence about
reset-and-continue derives from it.  `src/unnamed/part_004`
(lines 499-598) ticks every 15 s and clears the interval when the maximum
total scan time is exceeded (lines 579-586).  part_004's `cleanup`
(lines 832-838) also clears the interval explicitly. -/

/-- Facts observable at one monitor tick. -/
structure MonitorTickInput where
  browserPresent : Bool
  pagePresent : Bool
  pageClosed : Bool
  loggedInFlag : Bool
  pageValid : Bool
  loginDetected : Bool
  qrVisible : Bool
  urlOnWhatsApp : Bool
  reloadOk : Bool
  now : Nat
  startTime : Nat
  lastRefresh : Nat
deriving Repr, DecidableEq

/-- Effect of one monitor tick: whether the interval was cleared, and the
mutable state afterwards. -/
structure MonitorTickOutput where
  stopped : Bool
  loggedInAfter : Bool
  startTimeAfter : Nat
  lastRefreshAfter : Nat
deriving Repr, DecidableEq

/-- `maxWaitTime` of both `src/index.js` monitor declarations (lines 491
and 1781): 5 min cloud, 3 min local. -/
def maxWaitTimeIndex (isCloud : Bool) : Nat :=
  if isCloud then 300000 else 180000

/-- `qrRefreshInterval` of the shadowed `src/index.js` monitor (line 492). -/
def qrRefreshIntervalIndex : Nat := 120000

/-- One tick of the LIVE `src/index.js` monitor callback (lines 1784-1839,
the second declaration, which wins under JavaScript function hoisting):
stop when the page handle is gone (1786-1789); otherwise take a progress
screenshot (1793) — when the page context is destroyed this throws, the
tick-level catch (1836-1838) swallows it, and monitoring continues; then
stop when the login probe succeeds (1801-1813), when the page URL no longer
contains `web.whatsapp.com` (1816-1821), or when the elapsed time exceeds
`maxWaitTime` (1824-1834).  `startTime` is a `const` here: it is never
reset, and no QR refresh is performed. -/
def monitorTickIndexLive (isCloud : Bool) (i : MonitorTickInput) :
    MonitorTickOutput :=
  if i.pagePresent = false then
    ⟨true, i.loggedInFlag, i.startTime, i.lastRefresh⟩
  else if i.pageValid = false then
    ⟨false, i.loggedInFlag, i.startTime, i.lastRefresh⟩
  else if i.loginDetected then
    ⟨true, true, i.startTime, i.lastRefresh⟩
  else if i.urlOnWhatsApp = false then
    ⟨true, i.loggedInFlag, i.startTime, i.lastRefresh⟩
  else if i.now - i.startTime > maxWaitTimeIndex isCloud then
    ⟨true, i.loggedInFlag, i.startTime, i.lastRefresh⟩
  else
    ⟨false, i.loggedInFlag, i.startTime, i.lastRefresh⟩

/-- One tick of the SHADOWED first `src/index.js` monitor callback
(lines 496-568) — dead code at runtime (the later declaration at 1776
shadows it), embedded because the specification's reset-and-continue
sentence derives from it: stop when the page is gone or already logged in
(498-501), when the page context is destroyed (504-509), or when the login
probe succeeds (514-522); otherwise refresh the QR when stale (524-538) or
invisible (540-554) (`lastQRRefresh` advances only when the reload did not
throw), and on exceeding `maxWaitTime` reset both timers and continue
(556-563) — the interval is NOT cleared on timeout. -/
def monitorTickIndexShadowed (isCloud : Bool) (i : MonitorTickInput) :
    MonitorTickOutput :=
  if i.pagePresent = false ∨ i.loggedInFlag then
    ⟨true, i.loggedInFlag, i.startTime, i.lastRefresh⟩
  else if i.pageValid = false then
    ⟨true, false, i.startTime, i.lastRefresh⟩
  else if i.loginDetected then
    ⟨true, true, i.startTime, i.lastRefresh⟩
  else
    let lr1 := if i.now - i.lastRefresh > qrRefreshIntervalIndex ∧ i.reloadOk
      then i.now else i.lastRefresh
    let lr2 := if i.qrVisible = false ∧ i.reloadOk then i.now else lr1
    if i.now - i.startTime > maxWaitTimeIndex isCloud then
      ⟨false, false, i.now, i.now⟩
    else
      ⟨false, false, i.startTime, lr2⟩

/-- `maxTotalScanTime` of the part_004 monitor (line 507). -/
def maxTotalScanTime04 (isCloud : Bool) : Nat :=
  if isCloud then 360000 else 240000

/-- `qrRefreshInterval` of the part_004 monitor (line 508). -/
def qrRefreshInterval04 (isCloud : Bool) : Nat :=
  if isCloud then 90000 else 60000

/-- One tick of the part_004 monitor callback (lines 513-597): stop when
browser/page are gone or the page is closed (515-519), when already logged
in (520-524), when the page context is destroyed (526-531), or when the
login probe succeeds (534-542); otherwise attempt a QR refresh when the QR
is invisible or stale (544-577, `lastQRRefreshAttemptTime` advances on both
success and failure of the refresh), and — unlike `src/index.js` — clear
the interval when the maximum total scan time is exceeded (579-586). -/
def monitorTick04 (isCloud : Bool) (i : MonitorTickInput) : MonitorTickOutput :=
  if i.browserPresent = false ∨ i.pagePresent = false ∨ i.pageClosed then
    ⟨true, i.loggedInFlag, i.startTime, i.lastRefresh⟩
  else if i.loggedInFlag then
    ⟨true, true, i.startTime, i.lastRefresh⟩
  else if i.pageValid = false then
    ⟨true, false, i.startTime, i.lastRefresh⟩
  else if i.loginDetected then
    ⟨true, true, i.startTime, i.lastRefresh⟩
  else
    let lr := if i.qrVisible = false ∨ i.now - i.lastRefresh > qrRefreshInterval04 isCloud
      then i.now else i.lastRefresh
    if i.now - i.startTime > maxTotalScanTime04 isCloud then
      ⟨true, false, i.startTime, lr⟩
    else
      ⟨false, false, i.startTime, lr⟩

/-- A part_004 session with its monitor handle
(`qrMonitoringIntervalId`). -/
structure Session04 where
  state : SessionState
  monitoring : Bool
deriving Repr, DecidableEq

/-- `cleanup` of `src/unnamed/part_004` (lines 832-862): clears the
monitoring interval, closes the browser, and resets every global flag. -/
def cleanup04 (_s : Session04) : Session04 :=
  ⟨⟨false, false, false, false⟩, false⟩

/-!
## Chat navigation and invalid destinations

`navigateToChat` of `src/unnamed/part_004` (lines 694-757) deep-links to
the conversation and then waits up to 25 s for either the compose box or
the invalid-number popup (lines 716-725).  A popup whose text matches the
invalid-number phrases raises a specific error (729-734) — which the very
`catch` of that `try` block (745-750) swallows, re-throwing the generic
chat-not-found error.  The embedding maps what the page surface shows
(first visible element and when) to the thrown error and the elapsed wait.
`navigateToChat` of `src/index.js` (lines 658-739) has no invalid-number
detection at all: it only loops over compose-box selectors with 20 s waits
each. -/

/-- Whether `needle` occurs as a contiguous run inside `hay`. -/
def listContains (hay needle : List Char) : Bool :=
  match hay with
  | [] => needle.isEmpty
  | _ :: t => needle.isPrefixOf hay || listContains t needle

/-- JavaScript `hay.includes(needle)` on strings. -/
def jsIncludes (hay needle : String) : Bool :=
  listContains hay.toList needle.toList

/-- The popup-text test of part_004 lines 731:
`popupText.toLowerCase().includes("isn't on whatsapp") ||
 popupText.toLowerCase().includes("phone number is incorrect")`. -/
def invalidPopupMatches (text : String) : Bool :=
  jsIncludes (jsToLower text) "isn\u0027t on whatsapp" ||
    jsIncludes (jsToLower text) "phone number is incorrect"

/-- What the conversation page surface does after the deep-link navigation:
the compose box becomes visible at `atMs` milliseconds, the invalid-number
popup with the given text becomes visible at `atMs` (and no compose box
ever appears), or neither appears within the 25 s window. -/
inductive ChatSurface where
  | composeAppears (atMs : Nat)
  | invalidPopup (text : String) (atMs : Nat)
  | neither
deriving Repr, DecidableEq

/-- The generic error `navigateToChat` (part_004 line 749) throws for every
failure of the compose-box wait, invalid destination included. -/
def chatNotFoundMsg (mobile : String) : String :=
  "Chat interface for " ++ mobile ++
    " not found after navigation. Potential issue or invalid number."

/-- Outcome of part_004's `navigateToChat` compose-box resolution
(lines 716-750): the thrown-or-returned result paired with the elapsed wait
in ms.  The combined `waitForSelector` resolves as soon as either surface is
visible; a matching invalid popup throws immediately, but through the
enclosing catch the surfaced error is the generic `chatNotFoundMsg`; a
non-matching popup falls through to a further 10 s compose-box wait; with
neither surface the 25 s timeout expires. -/
def navigateToChat04 (mobile : String) (surface : ChatSurface) :
    Except String Bool × Nat :=
  match surface with
  | .composeAppears t => (.ok true, t)
  | .invalidPopup text t =>
    if invalidPopupMatches text then (.error (chatNotFoundMsg mobile), t)
    else (.error (chatNotFoundMsg mobile), t + 10000)
  | .neither => (.error (chatNotFoundMsg mobile), 25000)

/-- The compose-surface wait budget of part_004's `navigateToChat`
(line 724): 25 000 ms. -/
def composeTimeout04 : Nat := 25000

/-- The result list the `/send-messages` loop of `src/index.js` builds for
`items` when item `i` meets the automation outcomes `env i`. -/
def batchResultsIndex (env : Nat → SendEnv) (items : List BatchItem) :
    List ItemResult :=
  (runItems processItemIndex env 0 items).map (fun p => p.result)

/-- The result list the part_004 `/send-messages` loop builds. -/
def batchResults04 (env : Nat → SendEnv) (items : List BatchItem) :
    List ItemResult :=
  (runItems processItem04 env 0 items).map (fun p => p.result)

/-- `results.filter(r => r.success).length`. -/
def successCount (rs : List ItemResult) : Nat :=
  (rs.filter (fun r => r.success)).length

/-- An environment whose submit succeeded and whose compose box reads as
cleared afterwards (one corroborating signal up). -/
def signalEnv : SendEnv :=
  { allOkEnv with inputCleared := true }

/-- A session that is fully `Ready`: browser and page live, logged in,
interface ready. -/
def readySession : SessionState :=
  ⟨true, true, true, true⟩

/-!
## Helper lemmas
-/

theorem intercalate_go_nil (acc s : String) :
    String.intercalate.go acc s [] = acc := rfl

theorem intercalate_go_cons (acc s a : String) (as : List String) :
    String.intercalate.go acc s (a :: as) =
      String.intercalate.go (acc ++ s ++ a) s as := rfl

theorem append_newline_ne_empty (a b : String) : a ++ ("\n" ++ b) ≠ "" := by
  intro h
  have h' := congrArg String.length h
  simp [String.length_append] at h'
  exact absurd h'.2.1 (by decide)

theorem buildCombinedContent_eq_joinPresent (message mediaUrl caption : String) :
    buildCombinedContent message mediaUrl caption =
      joinPresent [mediaUrl, caption, message] := by
  by_cases hm : mediaUrl = "" <;> by_cases hc : caption = "" <;>
    by_cases hb : message = "" <;>
    simp [buildCombinedContent, joinPresent, hm, hc, hb, String.intercalate,
      intercalate_go_nil, intercalate_go_cons, append_newline_ne_empty,
      String.append_assoc]


theorem length_filter_not {α : Type} (p : α → Bool) (l : List α) :
    (l.filter (fun a => !(p a))).length = l.length - (l.filter p).length := by
  induction l with
  | nil => rfl
  | cons a t ih =>
    have hle : (t.filter p).length ≤ t.length := List.length_filter_le p t
    by_cases h : p a <;> simp [List.filter_cons, h, ih] <;> omega

theorem runItems_length (step : SendEnv → BatchItem → ItemProcessed)
    (env : Nat → SendEnv) (i : Nat) (items : List BatchItem) :
    (runItems step env i items).length = items.length := by
  induction items generalizing i with
  | nil => rfl
  | cons it rest ih => simp [runItems, ih]

theorem jsDotChunksAux_flatten (l : List Char) : ∀ cur : List Char,
    (jsDotChunksAux cur l).flatten = cur.reverse ++ l.filter jsDotMatches := by
  induction l with
  | nil =>
    intro cur
    by_cases h : cur.isEmpty
    · simp [jsDotChunksAux, h, List.isEmpty_iff.mp h]
    · simp [jsDotChunksAux, h]
  | cons c rest ih =>
    intro cur
    by_cases hc : jsDotMatches c = false
    · by_cases hcur : cur.isEmpty
      · simp [jsDotChunksAux, hc, hcur, ih, List.isEmpty_iff.mp hcur,
          List.filter_cons]
      · simp [jsDotChunksAux, hc, hcur, ih, List.filter_cons]
    · have hc' : jsDotMatches c = true := by
        cases hcc : jsDotMatches c
        · exact absurd hcc hc
        · rfl
      by_cases hlen : cur.length = 100
      · simp [jsDotChunksAux, hc, hlen, ih, List.filter_cons, hc']
      · simp [jsDotChunksAux, hc, hlen, ih, List.filter_cons, hc']

theorem typedContent04_eq_filter (s : String) :
    typedContent04 s = ⟨s.data.filter jsDotMatches⟩ := by
  simp [typedContent04, jsDotChunksAux_flatten]

/-!
## Claim theorems
-/

/-- C3 counterexample: with all three fields present, the combined payload
is built as media, caption and body joined by single newlines — but
part_004's chunk loop types `combinedContent.match(/.{1,100}/g)` chunk by
chunk, and `.` never matches a newline, so what reaches the compose surface
there has lost every newline separator: for media "m", caption "c" and
body "b" the built payload is "m\nc\nb" while part_004 types "mcb", which
differs from the built payload.  (The index.js variant types the payload
verbatim, line 822.) -/
theorem typed_payload_loses_newlines :
    buildCombinedContent "b" "m" "c" = "m" ++ "\n" ++ "c" ++ "\n" ++ "b"
    ∧ typedContent04 (buildCombinedContent "b" "m" "c") = "mcb"
    ∧ typedContent04 (buildCombinedContent "b" "m" "c")
        ≠ buildCombinedContent "b" "m" "c"
    ∧ typedContentIndex (buildCombinedContent "b" "m" "c")
        = "m" ++ "\n" ++ "c" ++ "\n" ++ "b" := by
  exact ⟨by decide, by decide, by decide, by decide⟩

/-- C3 amended: the combined payload is built by concatenation in the fixed
order media reference, then caption, then text body, joined by single
newlines, an absent field contributing nothing and no extra separator (the
payload is the newline-join of the non-empty fields in that order); the
`src/index.js` dispatch types that payload into the compose surface
verbatim, but part_004's chunked typing (`match(/.{1,100}/g)`, which cannot
match newlines) delivers the payload with all newline separators removed —
for newline-free non-empty fields, exactly the three fields concatenated
with no separator at all. -/
theorem combined_payload_order_and_typing :
    (∀ media cap msg : String, media ≠ "" → cap ≠ "" → msg ≠ "" →
      buildCombinedContent msg media cap = media ++ "\n" ++ cap ++ "\n" ++ msg)
    ∧ (∀ media cap msg : String,
      buildCombinedContent msg media cap = joinPresent [media, cap, msg])
    ∧ (∀ s : String, typedContentIndex s = s)
    ∧ (∀ s : String, typedContent04 s = ⟨s.data.filter jsDotMatches⟩)
    ∧ (∀ media cap msg : String, media ≠ "" → cap ≠ "" → msg ≠ "" →
      media.data.all jsDotMatches = true → cap.data.all jsDotMatches = true →
      msg.data.all jsDotMatches = true →
      typedContent04 (buildCombinedContent msg media cap)
        = media ++ cap ++ msg) := by
  have horder : ∀ media cap msg : String, media ≠ "" → cap ≠ "" → msg ≠ "" →
      buildCombinedContent msg media cap
        = media ++ "\n" ++ cap ++ "\n" ++ msg := by
    intro media cap msg hm hc hb
    simp [buildCombinedContent, hm, hc, hb, String.append_assoc,
      append_newline_ne_empty]
  refine ⟨horder, ?_, fun s => rfl, typedContent04_eq_filter, ?_⟩
  · intro media cap msg
    exact buildCombinedContent_eq_joinPresent msg media cap
  · intro media cap msg hm hc hb hmn hcn hbn
    rw [horder media cap msg hm hc hb, typedContent04_eq_filter]
    obtain ⟨md⟩ := media
    obtain ⟨cd⟩ := cap
    obtain ⟨bd⟩ := msg
    have hfm : md.filter jsDotMatches = md :=
      List.filter_eq_self.mpr (by simpa [List.all_eq_true] using hmn)
    have hfc : cd.filter jsDotMatches = cd :=
      List.filter_eq_self.mpr (by simpa [List.all_eq_true] using hcn)
    have hfb : bd.filter jsDotMatches = bd :=
      List.filter_eq_self.mpr (by simpa [List.all_eq_true] using hbn)
    simp only [String.data_append, List.filter_append, hfm, hfc, hfb]
    have hnl : List.filter jsDotMatches "\n".data = [] := by decide
    rw [hnl]
    apply String.ext
    simp [String.data_append, List.append_assoc]

/-- Witness for C3 amended at media "m", caption "c", body "b": the built
payload keeps its newline separators while part_004's typed content is the
bare concatenation. -/
theorem combined_payload_order_and_typing_witness :
    buildCombinedContent "b" "m" "c" = "m" ++ "\n" ++ "c" ++ "\n" ++ "b"
    ∧ typedContent04 (buildCombinedContent "b" "m" "c") = "m" ++ "c" ++ "b" :=
  ⟨combined_payload_order_and_typing.1 "m" "c" "b"
      (by decide) (by decide) (by decide),
   combined_payload_order_and_typing.2.2.2.2 "m" "c" "b"
      (by decide) (by decide) (by decide) (by decide) (by decide) (by decide)⟩

/-- C10: when both `filePath` and `link` are supplied, the media reference
used in the composed message is `filePath`; `link` is used exactly when
`filePath` is absent or empty (`const mediaUrl = filePath || link`), so the
two fields are never both included. -/
theorem media_reference_priority :
    (∀ it : BatchItem, it.filePath ≠ "" → itemMediaUrl it = it.filePath)
    ∧ (∀ it : BatchItem, it.filePath = "" → itemMediaUrl it = it.link) := by
  constructor <;> intro it h <;> simp [itemMediaUrl, jsOr, h]

/-- Witness for C10 at a request carrying both `filePath` and `link`, and a
request carrying only `link`. -/
theorem media_reference_priority_witness :
    itemMediaUrl ⟨"1", "15551234567", "hi", "f.png", "http://x", ""⟩ = "f.png"
    ∧ itemMediaUrl ⟨"2", "15551234567", "hi", "", "http://x", ""⟩ = "http://x" :=
  ⟨media_reference_priority.1 ⟨"1", "15551234567", "hi", "f.png", "http://x", ""⟩ (by decide),
   media_reference_priority.2 ⟨"2", "15551234567", "hi", "", "http://x", ""⟩ rfl⟩

/-- C1: for every non-empty batch of N dispatch requests processed by a
live, logged-in session, the bulk runner returns exactly one result per
input item (item `i` processed against its own automation outcomes), and
the aggregated summary has `total = N`, `successful` = the number of
results with `success:true`, and `failed = N - successful` — in both the
`src/index.js` handler (which computes `failed` by filtering) and the
part_004 handler (which computes it by subtraction).  No item outcome can
abort the batch: `sendCombinedMessage` converts every step failure into a
`success:false` result, so the embedded runner is total. -/
theorem batch_one_result_per_item (env : Nat → SendEnv) (st : SessionState)
    (items : List BatchItem) (hb : st.browserActive = true)
    (hp : st.pageActive = true) (hl : st.loggedIn = true)
    (hr : st.ready = true) (hne : items ≠ []) :
    (processBatchIndex env st items).1 =
      .okResp ⟨items.length, successCount (batchResultsIndex env items),
          items.length - successCount (batchResultsIndex env items)⟩
        (batchResultsIndex env items)
    ∧ (batchResultsIndex env items).length = items.length
    ∧ (processBatch04 env st items).1 =
      .okResp ⟨items.length, successCount (batchResults04 env items),
          items.length - successCount (batchResults04 env items)⟩
        (batchResults04 env items)
    ∧ (batchResults04 env items).length = items.length := by
  have hlenI : (batchResultsIndex env items).length = items.length := by
    simp [batchResultsIndex, runItems_length]
  have hlen04 : (batchResults04 env items).length = items.length := by
    simp [batchResults04, runItems_length]
  refine ⟨?_, hlenI, ?_, hlen04⟩
  · have hfail := length_filter_not (fun r : ItemResult => r.success)
      (batchResultsIndex env items)
    rw [hlenI] at hfail
    simp only [processBatchIndex, if_neg hne, hb, hp, hl, and_self,
      not_true_eq_false, if_false, Bool.true_eq_false]
    simp only [batchResultsIndex, successCount] at hfail ⊢
    rw [hfail]
  · rw [show processBatch04 env st items =
      (.okResp ⟨items.length,
        successCount (batchResults04 env items),
        (batchResults04 env items).length - successCount (batchResults04 env items)⟩
        (batchResults04 env items),
       ((runItems processItem04 env 0 items).filter (fun p => p.dispatched)).length)
      from ?_]
    · rw [hlen04]
    · simp only [processBatch04, if_neg hne, hb, hp, hl, hr, and_self,
        not_true_eq_false, if_false, Bool.true_eq_false]
      simp [batchResults04, successCount]

/-- Witness for C1: a two-item batch whose second item fails validation
still yields two results and the summary `total 2, successful 1,
failed 1` in both handler variants. -/
theorem batch_one_result_per_item_witness :
    (processBatchIndex (fun _ => allOkEnv) readySession
        [⟨"1", "15551234567", "hello", "", "", ""⟩, ⟨"2", "", "hi", "", "", ""⟩]).1
      = .okResp ⟨2, 1, 1⟩
          [⟨"1", true, "15551234567", none⟩,
           ⟨"2", false, "unknown", some "Mobile number is required"⟩]
    ∧ (processBatch04 (fun _ => allOkEnv) readySession
        [⟨"1", "15551234567", "hello", "", "", ""⟩, ⟨"2", "", "hi", "", "", ""⟩]).1
      = .okResp ⟨2, 1, 1⟩
          [⟨"1", true, "15551234567", none⟩,
           ⟨"2", false, "unknown",
             some "Mobile number and (message or media) are required."⟩] := by
  have h := batch_one_result_per_item (fun _ => allOkEnv) readySession
    [⟨"1", "15551234567", "hello", "", "", ""⟩, ⟨"2", "", "hi", "", "", ""⟩]
    rfl rfl rfl rfl (by decide)
  refine ⟨?_, ?_⟩
  · rw [h.1]; decide
  · rw [h.2.2.1]; decide

/-- C4: a request whose destination identifier is missing, and likewise a
request missing text body, media reference (filePath and link) and caption
alike, is answered with a `success:false` result by the per-item validation
of the bulk handler — in both variants — without `sendCombinedMessage`
being invoked and hence without any navigation to the destination
conversation. -/
theorem dispatch_validation_fail_fast (env : SendEnv) (it : BatchItem) :
    (it.mobile = "" →
      (processItemIndex env it).result.success = false
      ∧ (processItemIndex env it).navigated = false
      ∧ (processItemIndex env it).dispatched = false
      ∧ (processItem04 env it).result.success = false
      ∧ (processItem04 env it).navigated = false
      ∧ (processItem04 env it).dispatched = false)
    ∧ (it.message = "" → it.filePath = "" → it.link = "" → it.caption = "" →
      (processItemIndex env it).result.success = false
      ∧ (processItemIndex env it).navigated = false
      ∧ (processItemIndex env it).dispatched = false
      ∧ (processItem04 env it).result.success = false
      ∧ (processItem04 env it).navigated = false
      ∧ (processItem04 env it).dispatched = false) := by
  constructor
  · intro hm
    simp [processItemIndex, processItem04, hm]
  · intro hmsg hf hli hc
    have hmu : itemMediaUrl it = "" := by simp [itemMediaUrl, jsOr, hf, hli]
    by_cases hm : it.mobile = "" <;>
      simp [processItemIndex, processItem04, hm, hmsg, hmu, jsTrim, isJsSpace]

/-- Witness for C4: a destination-less request and an all-content-empty
request are both rejected without dispatch or navigation. -/
theorem dispatch_validation_fail_fast_witness :
    ((processItemIndex allOkEnv ⟨"1", "", "hi", "", "", ""⟩).result.success = false
      ∧ (processItemIndex allOkEnv ⟨"1", "", "hi", "", "", ""⟩).navigated = false
      ∧ (processItemIndex allOkEnv ⟨"1", "", "hi", "", "", ""⟩).dispatched = false
      ∧ (processItem04 allOkEnv ⟨"1", "", "hi", "", "", ""⟩).result.success = false
      ∧ (processItem04 allOkEnv ⟨"1", "", "hi", "", "", ""⟩).navigated = false
      ∧ (processItem04 allOkEnv ⟨"1", "", "hi", "", "", ""⟩).dispatched = false)
    ∧ ((processItemIndex allOkEnv ⟨"2", "15551234567", "", "", "", ""⟩).result.success = false
      ∧ (processItemIndex allOkEnv ⟨"2", "15551234567", "", "", "", ""⟩).navigated = false
      ∧ (processItemIndex allOkEnv ⟨"2", "15551234567", "", "", "", ""⟩).dispatched = false
      ∧ (processItem04 allOkEnv ⟨"2", "15551234567", "", "", "", ""⟩).result.success = false
      ∧ (processItem04 allOkEnv ⟨"2", "15551234567", "", "", "", ""⟩).navigated = false
      ∧ (processItem04 allOkEnv ⟨"2", "15551234567", "", "", "", ""⟩).dispatched = false) :=
  ⟨(dispatch_validation_fail_fast allOkEnv ⟨"1", "", "hi", "", "", ""⟩).1 rfl,
   (dispatch_validation_fail_fast allOkEnv ⟨"2", "15551234567", "", "", "", ""⟩).2
     rfl rfl rfl rfl⟩

/-- C5: while the session is `Ready` (logged in with a live automation
surface), `initialize()` is idempotent: both the first and the second call
return the already-active response with `loggedIn true`, leave the session
state unchanged, and launch or navigate no new automation surface (the
launched/navigated flag of the result triple is `false`); part_004's
`initializeWhatsApp` guard behaves the same way. -/
theorem initialize_idempotent_when_ready
    (fresh : SessionState → InitResponse × SessionState × Bool)
    (wait : SessionState → Except String SessionState)
    (fresh04 : SessionState → Except String (InitResult04 × SessionState × Bool))
    (st : SessionState) (hl : st.loggedIn = true)
    (hb : st.browserActive = true) (hr : st.ready = true) :
    initializeHandlerIndex fresh st = (alreadyActiveResponse, st, false)
    ∧ initializeHandlerIndex fresh (initializeHandlerIndex fresh st).2.1
        = (alreadyActiveResponse, st, false)
    ∧ initializeWhatsApp04 wait fresh04 st = .ok (⟨true⟩, st, false) := by
  have h1 : initializeHandlerIndex fresh st = (alreadyActiveResponse, st, false) := by
    simp [initializeHandlerIndex, hl, hb]
  refine ⟨h1, ?_, ?_⟩
  · rw [h1]
    exact h1
  · simp [initializeWhatsApp04, hl, hb, hr]

/-- Witness for C5 at a fully `Ready` session, with a fresh-start oracle
that would launch a surface and report not-logged-in if it were reached. -/
theorem initialize_idempotent_when_ready_witness :
    initializeHandlerIndex (fun s => (⟨false, "fresh start", false⟩, s, true))
        readySession = (alreadyActiveResponse, readySession, false)
    ∧ initializeHandlerIndex (fun s => (⟨false, "fresh start", false⟩, s, true))
        (initializeHandlerIndex (fun s => (⟨false, "fresh start", false⟩, s, true))
          readySession).2.1
        = (alreadyActiveResponse, readySession, false)
    ∧ initializeWhatsApp04 (fun s => .ok s) (fun _ => .error "fresh start")
        readySession = .ok (⟨true⟩, readySession, false) :=
  initialize_idempotent_when_ready
    (fun s => (⟨false, "fresh start", false⟩, s, true))
    (fun s => .ok s) (fun _ => .error "fresh start") readySession rfl rfl rfl

/-- C9 counterexample: the bulk operation on the empty request list does
NOT return a zero `BatchSummary` — both handler variants answer the
empty batch with a 400 validation error carrying no summary at all
(`dispatch` is indeed never invoked: the invocation count is 0). -/
theorem empty_batch_no_zero_summary :
    processBatchIndex (fun _ => allOkEnv) readySession []
      = (.badRequest "Invalid request body. Expected array of WhatsApp messages in \"whatsapp\" field.", 0)
    ∧ (processBatchIndex (fun _ => allOkEnv) readySession []).1
        ≠ .okResp ⟨0, 0, 0⟩ []
    ∧ processBatch04 (fun _ => allOkEnv) readySession []
      = (.badRequest "Invalid \"whatsapp\" array in request body.", 0) :=
  ⟨rfl, by decide, rfl⟩

/-- C9 amended: the bulk operation on the empty list is rejected with a
validation error response (no `BatchSummary` is produced), and the
per-item dispatch operation is never invoked — its invocation count in the
returned pair is 0 — in both handler variants. -/
theorem empty_batch_rejected_without_dispatch
    (env : Nat → SendEnv) (st : SessionState) :
    processBatchIndex env st []
      = (.badRequest "Invalid request body. Expected array of WhatsApp messages in \"whatsapp\" field.", 0)
    ∧ processBatch04 env st []
      = (.badRequest "Invalid \"whatsapp\" array in request body.", 0) :=
  ⟨rfl, rfl⟩

/-- C2 counterexample: with every automation step succeeding and none of
the three corroborating signals observable (compose box not cleared, no
message bubble, no sent indicator), `sendCombinedMessage` — the dispatch
path of the `/send-message` and `/send-messages` endpoints — still declares
`success:true` in both variants: success is declared merely because typing
and submitting raised no exception. -/
theorem dispatch_success_without_corroboration :
    (sendCombinedMessageIndex allOkEnv "15551234567" "hello" "" "").success = true
    ∧ (sendCombinedMessage04 allOkEnv "15551234567" "hello" "" "").success = true
    ∧ observedSignal allOkEnv = false := by
  refine ⟨by decide, by decide, rfl⟩

/-- C2 amended: only `sendTextMessage`'s keyboard-submit loop requires a
corroborating signal — it reports the message as sent only if some attempt
both succeeded and was followed by an observable signal; its send-button
fallback reports the message sent with no verification at all, and
`sendCombinedMessage` (the dispatch path actually wired to the send
endpoints) ignores the corroborating signals entirely: its success value is
invariant under any change of the three signal fields. -/
theorem send_verification_policy :
    (∀ attempts : List SendAttempt, keyboardAttemptLoop attempts = true →
      ∃ a ∈ attempts, a.pressOk = true ∧ observedSignal a.signals = true)
    ∧ (∀ (env : SendEnv) (b1 b2 b3 : Bool) (mobile message mediaUrl caption : String),
        (sendCombinedMessageIndex
            { env with inputCleared := b1, bubblePresent := b2, sentIndicator := b3 }
            mobile message mediaUrl caption).success
          = (sendCombinedMessageIndex env mobile message mediaUrl caption).success
        ∧ (sendCombinedMessage04
            { env with inputCleared := b1, bubblePresent := b2, sentIndicator := b3 }
            mobile message mediaUrl caption).success
          = (sendCombinedMessage04 env mobile message mediaUrl caption).success)
    ∧ (∀ attempts : List SendAttempt, keyboardAttemptLoop attempts = false →
        sendTextMessageSent attempts true true = true) := by
  refine ⟨?_, ?_, ?_⟩
  · intro attempts h
    induction attempts with
    | nil => simp [keyboardAttemptLoop] at h
    | cons a rest ih =>
      by_cases ha : (a.pressOk && observedSignal a.signals) = true
      · exact ⟨a, List.mem_cons_self a rest, by simpa using ha⟩
      · rw [keyboardAttemptLoop, if_neg ha] at h
        obtain ⟨b, hbmem, hbp⟩ := ih h
        exact ⟨b, List.mem_cons_of_mem a hbmem, hbp⟩
  · intro env b1 b2 b3 mobile message mediaUrl caption
    cases env
    exact ⟨rfl, rfl⟩
  · intro attempts h
    simp [sendTextMessageSent, h]

/-- Witness for C2 amended: one verified keyboard attempt whose signal is a
cleared compose box, and the unverified button fallback with no attempts. -/
theorem send_verification_policy_witness :
    (∃ a ∈ [SendAttempt.mk true signalEnv],
      a.pressOk = true ∧ observedSignal a.signals = true)
    ∧ (sendCombinedMessageIndex { allOkEnv with inputCleared := true }
          "15551234567" "hello" "" "").success
        = (sendCombinedMessageIndex allOkEnv "15551234567" "hello" "" "").success
    ∧ sendTextMessageSent [] true true = true :=
  ⟨send_verification_policy.1 [SendAttempt.mk true signalEnv] (by decide),
   (send_verification_policy.2.1 allOkEnv true false false
      "15551234567" "hello" "" "").1,
   send_verification_policy.2.2 [] rfl⟩

/-- C6 counterexample: the screenshot fallback of `extractQRCode` is NOT
subject to the 1000-character minimum before success is reported.  In
`src/index.js` a 10-byte element screenshot (data URL length 38) is
returned as success, and in part_004 a 500-byte screenshot (data URL
length 690) passes its weaker 500-byte buffer check — both below the
1000-character threshold applied to the canvas data. -/
theorem qr_fallback_below_threshold :
    extractQRCodeIndex ⟨none, some 10⟩ = .ok "screenshot" 38
    ∧ 38 < 1000
    ∧ extractQRCode04 ⟨none, some 500⟩ = .ok "screenshot" 690
    ∧ 690 < 1000 := by
  refine ⟨rfl, by decide, rfl, by decide⟩

/-- C6 amended: the directly serialized canvas data is returned only when
its length is at least 1000 (both variants); otherwise the bytes come from
the element-screenshot fallback, which is NOT subject to the same
1000-character minimum: in `src/index.js` every successful screenshot is
returned regardless of size, and in part_004 only the raw screenshot
buffer is required to be at least 500 bytes (so the returned data URL is
at least 690 characters, possibly below 1000). -/
theorem qr_extraction_threshold_policy :
    (∀ (pg : QRPageData) (n : Nat),
      extractQRCodeIndex pg = .ok "canvas" n → 1000 ≤ n)
    ∧ (∀ (pg : QRPageData) (n : Nat),
      extractQRCode04 pg = .ok "canvas" n → 1000 ≤ n)
    ∧ (∀ (pg : QRPageData) (n : Nat),
      extractQRCode04 pg = .ok "screenshot" n →
        690 ≤ n ∧ ∃ b, 500 ≤ b ∧ n = dataUrlLen b)
    ∧ (∀ b : Nat, qrFallbackIndex (some b) = .ok "screenshot" (dataUrlLen b)) := by
  have hcanvas : ∀ (sl : Option Nat) (n : Nat),
      qrFallbackIndex sl ≠ .ok "canvas" n := by
    intro sl n h
    cases sl <;> simp [qrFallbackIndex] at h
  have hcanvas04 : ∀ (sl : Option Nat) (n : Nat),
      qrFallback04 sl ≠ .ok "canvas" n := by
    intro sl n h
    cases sl with
    | none => simp [qrFallback04] at h
    | some b =>
      by_cases hb : b < 500 <;> simp [qrFallback04, hb] at h
  refine ⟨?_, ?_, ?_, fun b => rfl⟩
  · intro pg n h
    rcases pg with ⟨cd, sl⟩
    cases cd with
    | none => exact absurd h (hcanvas sl n)
    | some m =>
      by_cases hm : m < 1000
      · rw [show extractQRCodeIndex ⟨some m, sl⟩ = qrFallbackIndex sl by
          simp [extractQRCodeIndex, hm]] at h
        exact absurd h (hcanvas sl n)
      · simp [extractQRCodeIndex, hm] at h
        omega
  · intro pg n h
    rcases pg with ⟨cd, sl⟩
    cases cd with
    | none => exact absurd h (hcanvas04 sl n)
    | some m =>
      by_cases hm : m < 1000
      · rw [show extractQRCode04 ⟨some m, sl⟩ = qrFallback04 sl by
          simp [extractQRCode04, hm]] at h
        exact absurd h (hcanvas04 sl n)
      · simp [extractQRCode04, hm] at h
        omega
  · intro pg n h
    have hfb : ∀ sl : Option Nat, qrFallback04 sl = .ok "screenshot" n →
        690 ≤ n ∧ ∃ b, 500 ≤ b ∧ n = dataUrlLen b := by
      intro sl hh
      cases sl with
      | none => simp [qrFallback04] at hh
      | some b =>
        by_cases hb : b < 500
        · simp [qrFallback04, hb] at hh
        · simp [qrFallback04, hb] at hh
          refine ⟨?_, b, by omega, hh.symm⟩
          have h2 : n = dataUrlLen b := hh.symm
          simp [dataUrlLen, b64Len] at h2
          omega
    rcases pg with ⟨cd, sl⟩
    cases cd with
    | none => exact hfb sl h
    | some m =>
      by_cases hm : m < 1000
      · rw [show extractQRCode04 ⟨some m, sl⟩ = qrFallback04 sl by
          simp [extractQRCode04, hm]] at h
        exact hfb sl h
      · simp [extractQRCode04, hm] at h

/-- Witness for C6 amended: the canvas branch at a 1200-character data URL
and the part_004 fallback at a 600-byte screenshot. -/
theorem qr_extraction_threshold_policy_witness :
    (1000 ≤ 1200 ∧ extractQRCodeIndex ⟨some 1200, some 600⟩ = .ok "canvas" 1200)
    ∧ (690 ≤ 822 ∧ ∃ b, 500 ≤ b ∧ 822 = dataUrlLen b) :=
  ⟨⟨qr_extraction_threshold_policy.1 ⟨some 1200, some 600⟩ 1200 rfl, rfl⟩,
   qr_extraction_threshold_policy.2.2.1 ⟨none, some 600⟩ 822 rfl⟩

/-- C7 counterexample: a monitor tick at which none of the three claimed
stop events holds — browser and page are live and valid, the session is
unauthenticated, no login is detected, the QR is visible, the page URL is
still on WhatsApp Web — still clears the interval in BOTH running monitors,
because the elapsed time exceeds the maximum wait (index.js live
declaration, lines 1824-1834: 200 000 ms > 180 000 ms locally; part_004,
lines 579-586: 300 000 ms > 240 000 ms locally).  Only the dead first
index.js declaration (shadowed at runtime) would have reset its timers and
kept running. -/
theorem monitor_stops_on_timeout :
    (monitorTickIndexLive false
        ⟨true, true, false, false, true, false, true, true, true, 200000, 0, 0⟩).stopped
      = true
    ∧ (monitorTick04 false
        ⟨true, true, false, false, true, false, true, true, true, 300000, 0, 295000⟩).stopped
      = true
    ∧ (monitorTickIndexShadowed false
        ⟨true, true, false, false, true, false, true, true, true, 200000, 0, 0⟩).stopped
      = false := by
  exact ⟨rfl, rfl, rfl⟩

/-- C7 amended: the live `src/index.js` monitor tick (second declaration,
the one that runs) stops exactly when the page handle is gone (what
`close()` leaves behind), or — with a working page context — when login is
detected, when the page URL leaves WhatsApp Web, or when the elapsed time
exceeds the maximum wait; with a destroyed page context its tick throws at
the screenshot and is swallowed, so it keeps running.  The part_004 monitor
stops exactly on browser/page loss or page closure, the logged-in flag,
page-context invalidation, login detection, or exceeding
`maxTotalScanTime`.  So BOTH running monitors end on exceeding the maximum
wait; the reset-and-continue behaviour the claim describes exists only in
the dead, shadowed first index.js declaration, which stops exactly on
page-handle loss, the logged-in flag, page invalidation, or login
detection.  part_004's `cleanup` (invoked by `/close`) always clears the
monitoring interval, so that monitor does not outlive the session. -/
theorem monitor_stop_characterization (isCloud : Bool) (i : MonitorTickInput) :
    ((monitorTickIndexLive isCloud i).stopped = true ↔
      (i.pagePresent = false
        ∨ (i.pageValid = true ∧ (i.loginDetected = true
            ∨ i.urlOnWhatsApp = false
            ∨ maxWaitTimeIndex isCloud < i.now - i.startTime))))
    ∧ ((monitorTick04 isCloud i).stopped = true ↔
      (i.browserPresent = false ∨ i.pagePresent = false ∨ i.pageClosed = true
        ∨ i.loggedInFlag = true ∨ i.pageValid = false ∨ i.loginDetected = true
        ∨ maxTotalScanTime04 isCloud < i.now - i.startTime))
    ∧ ((monitorTickIndexShadowed isCloud i).stopped = true ↔
      (i.pagePresent = false ∨ i.loggedInFlag = true ∨ i.pageValid = false
        ∨ i.loginDetected = true))
    ∧ (∀ s : Session04, (cleanup04 s).monitoring = false) := by
  refine ⟨?_, ?_, ?_, fun s => rfl⟩
  · rcases i with ⟨br, pp, pc, lf, pv, ld, qv, url, ro, now, start, last⟩
    simp only [monitorTickIndexLive]
    by_cases h1 : pp = false
    · simp [h1]
    · simp only [if_neg h1]
      by_cases h2 : pv = false
      · simp [h2, h1]
      · simp only [if_neg h2]
        by_cases h3 : ld = true
        · simp [h3, h1, h2]
        · simp only [if_neg h3]
          by_cases h4 : url = false
          · simp [h4, h1, h2, h3]
          · simp only [if_neg h4]
            by_cases h5 : now - start > maxWaitTimeIndex isCloud <;>
              simp [h5, h1, h2, h3, h4]
  · rcases i with ⟨br, pp, pc, lf, pv, ld, qv, url, ro, now, start, last⟩
    simp only [monitorTick04]
    by_cases h1 : br = false ∨ pp = false ∨ pc = true
    · simp [h1]
      tauto
    · simp only [if_neg h1]
      by_cases h2 : lf = true
      · simp [h2]
      · simp only [if_neg h2]
        by_cases h3 : pv = false
        · simp [h3]
        · simp only [if_neg h3]
          by_cases h4 : ld = true
          · simp [h4]
          · simp only [if_neg h4]
            by_cases h5 : now - start > maxTotalScanTime04 isCloud <;>
              simp [h5, h1, h2, h3, h4]
  · rcases i with ⟨br, pp, pc, lf, pv, ld, qv, url, ro, now, start, last⟩
    simp only [monitorTickIndexShadowed]
    by_cases h1 : pp = false ∨ lf = true
    · simp [h1]
      tauto
    · simp only [if_neg h1]
      by_cases h2 : pv = false
      · simp [h2]
      · simp only [if_neg h2]
        by_cases h3 : ld = true
        · simp [h3]
        · simp only [if_neg h3]
          by_cases h4 : now - start > maxWaitTimeIndex isCloud <;>
            simp [h4, h1, h2, h3]

/-- Witness for C7 amended: the live index-variant monitor tick stops once
the page handle is gone (the state `close()` leaves), and part_004's
cleanup clears the monitoring flag of a live monitoring session. -/
theorem monitor_stop_characterization_witness :
    (monitorTickIndexLive false
        ⟨true, false, false, false, true, false, true, true, true, 50000, 0, 0⟩).stopped
      = true
    ∧ (cleanup04 ⟨readySession, true⟩).monitoring = false :=
  ⟨(monitor_stop_characterization false
      ⟨true, false, false, false, true, false, true, true, true, 50000, 0, 0⟩).1.mpr
      (Or.inl rfl),
   (monitor_stop_characterization false
      ⟨true, false, false, false, true, false, true, true, true, 50000, 0, 0⟩).2.2.2
      ⟨readySession, true⟩⟩

/-- C8 counterexample: when the target UI flags the destination as invalid
(the invalid-number popup, with matching text, appears 3 s into the wait),
part_004's `navigateToChat` does fail early (3000 ms < the 25 000 ms
compose-surface timeout) — but NOT with a specific destination-invalid
error: the specific message thrown at line 733 is swallowed by the
enclosing catch, and the surfaced error is exactly the same generic
chat-not-found message produced when neither surface ever appears, so no
specific destination-invalid error reaches the dispatch result. -/
theorem invalid_destination_error_not_specific :
    navigateToChat04 "15551234567"
        (.invalidPopup "isn\u0027t on whatsapp" 3000)
      = (.error (chatNotFoundMsg "15551234567"), 3000)
    ∧ (navigateToChat04 "15551234567" .neither).1
      = .error (chatNotFoundMsg "15551234567")
    ∧ chatNotFoundMsg "15551234567"
      = "Chat interface for 15551234567 not found after navigation. Potential issue or invalid number." := by
  refine ⟨?_, rfl, rfl⟩
  have hm : invalidPopupMatches "isn\u0027t on whatsapp" = true := by decide
  simp [navigateToChat04, hm]

/-- C8 amended: for a destination the target flags as invalid (a matching
invalid-destination popup appearing `t` ms into the wait, `t` below the
25 000 ms compose-surface timeout), part_004's `navigateToChat` fails after
`t` ms — without waiting out the full timeout — but the error it surfaces
is the generic chat-not-found message (identical to the timeout case)
rather than a specific destination-invalid error; the `src/index.js`
variant performs no invalid-destination detection at all. -/
theorem invalid_destination_fail_fast (mobile text : String) (t : Nat)
    (hm : invalidPopupMatches text = true) (ht : t < composeTimeout04) :
    navigateToChat04 mobile (.invalidPopup text t)
      = (.error (chatNotFoundMsg mobile), t)
    ∧ t < composeTimeout04
    ∧ (navigateToChat04 mobile .neither).2 = composeTimeout04 := by
  exact ⟨by simp [navigateToChat04, hm], ht, rfl⟩

/-- Witness for C8 amended at a popup appearing after 3 s. -/
theorem invalid_destination_fail_fast_witness :
    navigateToChat04 "15551234567"
        (.invalidPopup "Phone number isn\u0027t on WhatsApp." 3000)
      = (.error (chatNotFoundMsg "15551234567"), 3000)
    ∧ 3000 < composeTimeout04
    ∧ (navigateToChat04 "15551234567" .neither).2 = composeTimeout04 :=
  invalid_destination_fail_fast "15551234567"
    "Phone number isn\u0027t on WhatsApp." 3000 (by decide) (by decide)
